import Mathlib

/-!
Verification of the MoleQueue request-routing and startup-arbitration core
(`src/molequeue/mainwindow.cpp`) against its natural-language specification.

The C++ slots are embedded as pure Lean functions that return the ordered
list of observable effects (responses sent on connections, queue-subsystem
calls, log lines, process-level actions).  The sender of a Qt signal is
resolved at dispatch time by `qobject_cast<ServerConnection*>(sender())`,
which may fail; this is embedded as an `Option ConnId` argument.  The
external Queue Directory (`QueueManager`) and Job Directory (`JobManager`)
are not part of the given source; they are modelled from the specification
(paragraph 6, "External Interfaces") as finite association structures.
-/

namespace MoleQueue

/-- Connection identifier: an opaque reference to a client connection. -/
abbrev ConnId := Nat

/-- `MoleQueue::IdType`: process-wide job identifier (an unsigned integer). -/
abbrev IdType := Nat

/-- A job description as used by `MainWindow::jobSubmissionRequested`:
the handler reads the queue name (`req->queue()`) and the content
fingerprint (`req->hash()`, used only for a debug log line). -/
structure Job where
  queue : String
  hash : Nat
  deriving DecidableEq, Repr

/-- Error codes surfaced in failed-submission responses; the handler uses
only `MoleQueue::InvalidQueue`. -/
inductive ErrorCode where
  | InvalidQueue
  deriving DecidableEq, Repr

/-- Modelled from the spec: a Queue (external, owned by the Queue Directory)
is identified by a unique name and exposes `submit(jobDescription) -> bool`. -/
structure Queue where
  name : String
  submitJob : Job → Bool

/-- Modelled from the spec: the Queue Directory (`QueueManager`, source not
under src/) owns queues identified by unique names and exposes
`lookup(queueName) -> Queue | absent` and `allNames()`. -/
structure QueueManager where
  queues : List Queue
  namesNodup : (queues.map Queue.name).Nodup

/-- Modelled from the spec: `QueueManager::lookupQueue` resolves a queue
name to a submittable queue, or reports it absent. -/
def QueueManager.lookupQueue (qm : QueueManager) (qname : String) : Option Queue :=
  qm.queues.find? (fun q => q.name == qname)

/-- Modelled from the spec: `QueueManager::toQueueList` queries the Queue
Directory for all queue names ("allNames() -> ordered sequence of string"). -/
def QueueManager.toQueueList (qm : QueueManager) : List String :=
  qm.queues.map Queue.name

/-- Modelled from the spec: the Job Directory (`JobManager`, source not under
src/) resolves a previously issued job identifier to its job record. -/
structure JobManager where
  jobs : List (IdType × Job)

/-- Modelled from the spec: `JobManager::lookupMoleQueueId` implements
`lookupByIdentifier(id) -> Job | absent`. -/
def JobManager.lookupMoleQueueId (jm : JobManager) (id : IdType) : Option Job :=
  (jm.jobs.find? (fun p => p.1 == id)).map Prod.snd

/-- The observable effects the `MainWindow` slots can produce, in program
order.  Response effects carry the connection they are sent on; the
cancellation response carries `Option Job` because the C++ code passes the
raw (possibly NULL) pointer returned by the Job Directory lookup. -/
inductive Effect where
  | warnNotServerConnection
  | debugSubmissionRequested (hash : Nat)
  | debugSubmissionOk (ok : Bool)
  | debugCancellationRequested (id : IdType)
  | sendQueueList (conn : ConnId) (queueList : List String)
  | sendFailedSubmissionResponse (conn : ConnId) (code : ErrorCode) (msg : String)
  | sendSuccessfulSubmissionResponse (conn : ConnId) (job : Job)
  | submitJob (queueName : String) (job : Job)
  | sendSuccessfulCancellationResponse (conn : ConnId) (job : Option Job)
  | hideWindow
  | appExit (code : Int)
  | forceStart
  | messageBoxWarning (title : String) (msg : String)
  deriving DecidableEq, Repr

/-- The connection a response effect is sent on (`none` for effects that are
not responses on a connection). -/
def Effect.connOf : Effect → Option ConnId
  | .sendQueueList c _ => some c
  | .sendFailedSubmissionResponse c _ _ => some c
  | .sendSuccessfulSubmissionResponse c _ => some c
  | .sendSuccessfulCancellationResponse c _ => some c
  | _ => none

/-- `true` exactly when the effect is a response event on some connection. -/
def Effect.isResponse (e : Effect) : Bool := e.connOf.isSome

/-- `MainWindow::queueListRequested` (mainwindow.cpp:149-159): resolve the
sender; if it is not a `ServerConnection`, warn and return; otherwise send
the Queue Directory's queue list on that connection. -/
def queueListRequested (sender : Option ConnId) (qm : QueueManager) : List Effect :=
  match sender with
  | none => [.warnNotServerConnection]
  | some conn => [.sendQueueList conn qm.toQueueList]

/-- `MainWindow::jobSubmissionRequested` (mainwindow.cpp:161-189): resolve
the sender; log the request; look up the named queue; if absent send a
failed-submission response with `InvalidQueue` and stop; if present send
the successful-submission response first, then invoke the queue's submit
operation and log its boolean result. -/
def jobSubmissionRequested (sender : Option ConnId) (qm : QueueManager)
    (req : Job) : List Effect :=
  match sender with
  | none => [.warnNotServerConnection]
  | some conn =>
    .debugSubmissionRequested req.hash ::
    match qm.lookupQueue req.queue with
    | none =>
      [.sendFailedSubmissionResponse conn .InvalidQueue
        ("Unknown queue: " ++ req.queue)]
    | some queue =>
      [.sendSuccessfulSubmissionResponse conn req,
       .submitJob queue.name req,
       .debugSubmissionOk (queue.submitJob req)]

/-- `MainWindow::jobCancellationRequested` (mainwindow.cpp:191-208): resolve
the sender; log the request; look up the job by identifier; then send a
successful-cancellation response built from whatever the lookup returned,
including the absent (NULL) case — the source's `@todo Handle NULL req`
path. -/
def jobCancellationRequested (sender : Option ConnId) (jm : JobManager)
    (moleQueueId : IdType) : List Effect :=
  match sender with
  | none => [.warnNotServerConnection]
  | some conn =>
    [.debugCancellationRequested moleQueueId,
     .sendSuccessfulCancellationResponse conn (jm.lookupMoleQueueId moleQueueId)]

/-- Socket errors as dispatched on by `MainWindow::handleServerError`: the
code distinguishes only `QAbstractSocket::AddressInUseError` from every
other error value. -/
inductive SocketError where
  | AddressInUseError
  | OtherError (code : Nat)
  deriving DecidableEq, Repr

/-- The result of `QInputDialog::getItem`: the chosen string and the `ok`
flag (false when the dialog is dismissed or cancelled). -/
structure DialogResponse where
  ok : Bool
  choice : String
  deriving DecidableEq, Repr

/-- `QStringList::indexOf`: index of the first occurrence, `-1` if absent. -/
def qIndexOf (l : List String) (s : String) : Int :=
  match l with
  | [] => -1
  | x :: xs => if x == s then 0 else
    let r := qIndexOf xs s
    if r == -1 then -1 else r + 1

/-- The two choices offered by the conflict dialog (mainwindow.cpp:110-112).
Index 0 continues (force-replaces); index 1 terminates the new instance. -/
def serverConflictChoices : List String :=
  ["There is no other server running. Continue running.",
   "Oops -- there is an existing server. Terminate the new server."]

/-- `MainWindow::handleServerError` (mainwindow.cpp:105-137): on
`AddressInUseError`, ask the user via a non-editable item dialog; if the
dialog was cancelled (`!ok`) or the terminate choice (index 1) was selected,
hide the window and exit the application; otherwise force-start the server,
taking over the endpoint.  Any other error only raises a warning box. -/
def handleServerError (err : SocketError) (str : String)
    (dialog : DialogResponse) : List Effect :=
  match err with
  | .AddressInUseError =>
    let choices := serverConflictChoices
    let index := qIndexOf choices dialog.choice
    if !dialog.ok || index == 1 then
      [.hideWindow, .appExit 0]
    else
      [.forceStart]
  | .OtherError _ =>
    [.messageBoxWarning "Server error"
      ("A server error has occurred: '" ++ str ++ "'")]

/-- `true` when every response effect in the list is sent on connection `c`. -/
def onlyConn (c : ConnId) (l : List Effect) : Bool :=
  l.all (fun e => match e.connOf with
    | none => true
    | some c' => c' == c)

/-- A Queue Directory with no queues. -/
def emptyQueueManager : QueueManager := ⟨[], List.nodup_nil⟩

/-- A Job Directory with no issued job identifiers. -/
def emptyJobManager : JobManager := ⟨[]⟩

/-- A concrete queue named "local" used in witnesses. -/
def localQueue : Queue := ⟨"local", fun _ => true⟩

/-- A Queue Directory holding exactly the queue "local". -/
def wQM : QueueManager := ⟨[localQueue], by simp [localQueue]⟩

/-- A concrete job description naming the existing queue "local". -/
def wJob : Job := ⟨"local", 42⟩

/-- A concrete job description naming the absent queue "Q". -/
def wJobQ : Job := ⟨"Q", 7⟩

/-- C9: when the dispatch-time sender cannot be resolved to a
`ServerConnection` (the cast yields null), each of the three handlers only
logs a warning: no response effect, no queue or job directory operation,
and no dereference of the null sender. -/
theorem C9_null_sender_only_warns (qm : QueueManager) (jm : JobManager)
    (req : Job) (id : IdType) :
    queueListRequested none qm = [.warnNotServerConnection] ∧
    jobSubmissionRequested none qm req = [.warnNotServerConnection] ∧
    jobCancellationRequested none jm id = [.warnNotServerConnection] :=
  ⟨rfl, rfl, rfl⟩

/-- C8: every ListQueues request with a resolved sender yields exactly one
response — a QueueList on the originating connection containing exactly the
Queue Directory's queue names, which are duplicate-free by the directory's
unique-name invariant; an empty directory yields the empty list. -/
theorem C8_list_queues_exact_and_nodup (c : ConnId) (qm : QueueManager) :
    queueListRequested (some c) qm = [.sendQueueList c qm.toQueueList] ∧
    qm.toQueueList = qm.queues.map Queue.name ∧
    qm.toQueueList.Nodup ∧
    emptyQueueManager.toQueueList = [] :=
  ⟨rfl, rfl, qm.namesNodup, rfl⟩

/-- C7: a server error that is not of the address-already-in-use class only
raises a user-visible warning box: no application exit, no forced rebind,
no hiding of the instance — the service continues. -/
theorem C7_other_error_only_notifies (code : Nat) (str : String)
    (d : DialogResponse) :
    handleServerError (.OtherError code) str d =
      [.messageBoxWarning "Server error"
        ("A server error has occurred: '" ++ str ++ "'")] ∧
    ((handleServerError (.OtherError code) str d).any
      (fun e => match e with
        | .appExit _ => true
        | .forceStart => true
        | .hideWindow => true
        | _ => false)) = false := by
  exact ⟨rfl, rfl⟩

/-- C6: on an address-already-in-use error, exactly one of two outcomes
happens: the new instance hides and exits (KeepExistingAndExit), or it
force-starts the server, taking over the endpoint (ForceReplace); no third
outcome exists, whatever the dialog interaction was. -/
theorem C6_conflict_exactly_two_outcomes (str : String) (d : DialogResponse) :
    handleServerError .AddressInUseError str d = [.hideWindow, .appExit 0] ∨
    handleServerError .AddressInUseError str d = [.forceStart] := by
  simp only [handleServerError]
  split
  · exact Or.inl rfl
  · exact Or.inr rfl

/-- C2: when the named queue exists in the Queue Directory, the handler's
effect sequence sends the successful-submission response strictly before it
invokes the queue's submit operation (witnessed by the decomposition with
the response occurring earlier in the list). -/
theorem C2_accept_sent_before_submit (c : ConnId) (qm : QueueManager)
    (req : Job) (q : Queue) (h : qm.lookupQueue req.queue = some q) :
    jobSubmissionRequested (some c) qm req =
      [.debugSubmissionRequested req.hash,
       .sendSuccessfulSubmissionResponse c req,
       .submitJob q.name req,
       .debugSubmissionOk (q.submitJob req)] ∧
    ∃ pre mid post, jobSubmissionRequested (some c) qm req =
      pre ++ Effect.sendSuccessfulSubmissionResponse c req ::
        (mid ++ Effect.submitJob q.name req :: post) := by
  have he : jobSubmissionRequested (some c) qm req =
      [.debugSubmissionRequested req.hash,
       .sendSuccessfulSubmissionResponse c req,
       .submitJob q.name req,
       .debugSubmissionOk (q.submitJob req)] := by
    simp [jobSubmissionRequested, h]
  exact ⟨he, [.debugSubmissionRequested req.hash], [],
         [.debugSubmissionOk (q.submitJob req)], he⟩

/-- Witness for C2: submitting a job to the existing queue "local" on
connection 0 produces the accepted response before the submit call. -/
theorem C2_accept_sent_before_submit_witness :
    wQM.lookupQueue wJob.queue = some localQueue ∧
    jobSubmissionRequested (some 0) wQM wJob =
      [.debugSubmissionRequested 42,
       .sendSuccessfulSubmissionResponse 0 wJob,
       .submitJob "local" wJob,
       .debugSubmissionOk true] :=
  ⟨rfl, (C2_accept_sent_before_submit 0 wQM wJob localQueue rfl).1⟩

/-- C3: when the named queue is absent from the Queue Directory, the handler
sends exactly one response — SubmissionRejected with code InvalidQueue and a
message containing the queue name — and stops: the queue's submit operation
is never invoked and no successful response is sent. -/
theorem C3_unknown_queue_rejected (c : ConnId) (qm : QueueManager)
    (req : Job) (h : qm.lookupQueue req.queue = none) :
    jobSubmissionRequested (some c) qm req =
      [.debugSubmissionRequested req.hash,
       .sendFailedSubmissionResponse c .InvalidQueue
         ("Unknown queue: " ++ req.queue)] ∧
    (∃ pre post, "Unknown queue: " ++ req.queue = pre ++ req.queue ++ post) ∧
    (∀ qn j, Effect.submitJob qn j ∉ jobSubmissionRequested (some c) qm req) ∧
    (∀ j, Effect.sendSuccessfulSubmissionResponse c j ∉
      jobSubmissionRequested (some c) qm req) := by
  refine ⟨by simp [jobSubmissionRequested, h], ⟨"Unknown queue: ", "", by simp⟩,
    ?_, ?_⟩ <;> intro _ <;> simp [jobSubmissionRequested, h]

/-- Witness for C3: submitting a job naming the absent queue "Q" against a
directory holding only "local" yields the InvalidQueue rejection. -/
theorem C3_unknown_queue_rejected_witness :
    wQM.lookupQueue wJobQ.queue = none ∧
    jobSubmissionRequested (some 0) wQM wJobQ =
      [.debugSubmissionRequested 7,
       .sendFailedSubmissionResponse 0 .InvalidQueue "Unknown queue: Q"] :=
  ⟨rfl, (C3_unknown_queue_rejected 0 wQM wJobQ rfl).1⟩

/-- C4: for each of the three request kinds dispatched with originating
connection `c`, every response effect produced is sent on `c` and on no
other connection: `onlyConn c` holds of the whole effect list, for every
directory content and job description. -/
theorem C4_responses_only_on_origin (c : ConnId) (qm : QueueManager)
    (jm : JobManager) (req : Job) (id : IdType) :
    onlyConn c (queueListRequested (some c) qm) = true ∧
    onlyConn c (jobSubmissionRequested (some c) qm req) = true ∧
    onlyConn c (jobCancellationRequested (some c) jm id) = true := by
  refine ⟨?_, ?_, ?_⟩
  · simp [onlyConn, queueListRequested, Effect.connOf]
  · cases h : qm.lookupQueue req.queue <;>
      simp [onlyConn, jobSubmissionRequested, h, Effect.connOf]
  · simp [onlyConn, jobCancellationRequested, Effect.connOf]

/-- C5: each of the three handlers, dispatched with a resolved sender,
produces exactly one response effect, for every directory content and
whatever boolean the queue's submit operation returns: no request is
dropped, none yields two responses. -/
theorem C5_exactly_one_response (c : ConnId) (qm : QueueManager)
    (jm : JobManager) (req : Job) (id : IdType) :
    (queueListRequested (some c) qm).countP Effect.isResponse = 1 ∧
    (jobSubmissionRequested (some c) qm req).countP Effect.isResponse = 1 ∧
    (jobCancellationRequested (some c) jm id).countP Effect.isResponse = 1 := by
  refine ⟨?_, ?_, ?_⟩
  · simp [queueListRequested, Effect.isResponse, Effect.connOf]
  · cases h : qm.lookupQueue req.queue <;>
      simp [jobSubmissionRequested, h, Effect.isResponse, Effect.connOf]
  · simp [jobCancellationRequested, Effect.isResponse, Effect.connOf]

/-- C1 (code behavior at the failing input): cancelling identifier 5 when
the Job Directory has issued no identifiers produces a *successful*
cancellation response built from the absent (`none`, i.e. NULL) job record
on the originating connection — not the CancellationRejected response the
specification requires; the code has no rejection path at all. -/
theorem C1_unknown_id_success_from_null_record :
    jobCancellationRequested (some 0) emptyJobManager 5 =
      [.debugCancellationRequested 5,
       .sendSuccessfulCancellationResponse 0 none] := rfl

/-- C10: assuming the non-editable dialog returns one of the offered
choices, cancelling or dismissing the dialog (ok = false) always hides the
window and exits, and the forced rebind happens exactly when the dialog was
confirmed with the first listed choice selected. -/
theorem C10_dismiss_terminates_force_only_first (okb : Bool)
    (choice : String) (s : String) (hmem : choice ∈ serverConflictChoices) :
    (okb = false →
      handleServerError .AddressInUseError s ⟨okb, choice⟩ =
        [.hideWindow, .appExit 0]) ∧
    (handleServerError .AddressInUseError s ⟨okb, choice⟩ = [.forceStart] ↔
      okb = true ∧
        choice = "There is no other server running. Continue running.") := by
  simp only [serverConflictChoices, List.mem_cons, List.not_mem_nil,
    or_false] at hmem
  rcases hmem with h | h <;> subst h <;> cases okb <;>
    simp [handleServerError, serverConflictChoices, qIndexOf]

/-- Witness for C10: dismissing the dialog (ok = false) with the terminate
choice displayed resolves to hide-and-exit. -/
theorem C10_dismiss_terminates_witness :
    ("Oops -- there is an existing server. Terminate the new server." ∈
      serverConflictChoices) ∧
    handleServerError .AddressInUseError "x"
      ⟨false, "Oops -- there is an existing server. Terminate the new server."⟩ =
      [.hideWindow, .appExit 0] :=
  ⟨by simp [serverConflictChoices],
   (C10_dismiss_terminates_force_only_first false
     "Oops -- there is an existing server. Terminate the new server." "x"
     (by simp [serverConflictChoices])).1 rfl⟩

end MoleQueue
